import Mathlib

/-!
Shallow embedding of the finagent workflow core: the merge functions of
finagent/state.py, the checker / router / join / planner logic of
finagent/nodes.py, the LLM gateway of finagent/llm.py, the token estimator
of finagent/tokens.py and the cost ledger of finagent/costing.py.

Python dicts with a fixed key set (section records, the workflow state) are
modelled as structures whose fields are Option-valued (none = key absent);
json.loads results are modelled by the inductive JVal; Python dict
truthiness / get-with-default semantics are reproduced by explicit helper
functions.  Exceptions that the Python code can raise are modelled with
Except.  Floating point cost arithmetic is modelled with exact rationals.
-/

namespace Finagent

/-- A value produced by Python json.loads.  A jobj represents the resulting
dict; after parsing, its keys are unique (json.loads keeps the last
duplicate), so lookup order is irrelevant. -/
inductive JVal where
  | jbool : Bool → JVal
  | jnum : Int → JVal
  | jstr : String → JVal
  | jarr : List JVal → JVal
  | jobj : List (String × JVal) → JVal

/-- Python truthiness bool(x) for a json.loads value. -/
def truthy : JVal → Bool
  | .jbool b => b
  | .jnum n => n != 0
  | .jstr s => s != ""
  | .jarr l => !l.isEmpty
  | .jobj l => !l.isEmpty

/-- dict.get(k) on a parsed JSON object (default None). -/
def jget (fields : List (String × JVal)) (k : String) : Option JVal :=
  (fields.find? (fun p => p.1 == k)).map (fun p => p.2)

/-- Python truthiness of a dict.get result: None is falsy. -/
def otruthy : Option JVal → Bool
  | none => false
  | some v => truthy v

/-- The per-section dict stored at state["bs"], state["inc"], state["cf"].
Fields are exactly the keys written by the generator and checker closures in
finagent/nodes.py; an Option value of none models an absent key (the record
starts as the empty dict). -/
structure SectionRec where
  draft : Option String := none
  passed : Option Bool := none
  feedback : Option JVal := none
  retries : Option Nat := none
  v : Option Int := none

/-- section_data.get("retries", 0)  (nodes.py). -/
def SectionRec.retriesD (s : SectionRec) : Nat := s.retries.getD 0

/-- Python truthiness of section_data.get("passed"): None and False are
falsy. -/
def SectionRec.passedB (s : SectionRec) : Bool := s.passed.getD false

/-- section_data.get("_v", 0)  (nodes.py). -/
def SectionRec.vD0 (s : SectionRec) : Int := s.v.getD 0

/-- section_data.get("_v", -1)  (state.py section_merge). -/
def SectionRec.vDneg (s : SectionRec) : Int := s.v.getD (-1)

/-- state.py: MAX_RETRIES = 2. -/
def MAX_RETRIES : Nat := 2

/-- Helper for state.py list_union: one pass over a + b keeping the first
occurrence of each element (the Python loop over a + b with a seen-dict). -/
def dedupFirst : List String → List String → List String
  | [], _ => []
  | x :: xs, seen => if x ∈ seen then dedupFirst xs seen else x :: dedupFirst xs (x :: seen)

/-- state.py list_union(a, b): a = a or [], b = b or [], then the elements
of a + b in first-seen order without duplicates. -/
def list_union (a b : Option (List String)) : List String :=
  dedupFirst (a.getD [] ++ b.getD []) []

/-- state.py section_merge(a, b): a = a or {}, b = b or {};
return a if a.get("_v", -1) >= b.get("_v", -1) else b. -/
def section_merge (a b : Option SectionRec) : SectionRec :=
  let av := a.getD {}
  let bv := b.getD {}
  if av.vDneg ≥ bv.vDneg then av else bv

/-- The ctx merge rule of state.py: operator.or_ on dicts, i.e. the
right-biased dict union a | b.  A Python dict is modelled extensionally as a
finite map String → Option JVal (Python dict equality is exactly agreement
of all lookups). -/
def dict_union (a b : String → Option JVal) : String → Option JVal :=
  fun k => match b k with
    | some v => some v
    | none => a k

/-- nodes.py checker: the default verdict used when json.loads raises:
fb = dict passed=True, feedback=[]. -/
def checkerDefaultVerdict : JVal := .jobj [("passed", .jbool true), ("feedback", .jarr [])]

/-- Python exceptions that the modelled node code can raise. -/
inductive PyError where
  | attributeError
deriving Repr, DecidableEq

/-- nodes.py checker._checker, the part after fb has been bound to a parsed
dict: r = section_data.get("retries", 0); if not fb.get("passed", False):
retry or forced-pass branch (both set retries = r + 1 and bump _v), the
forced-pass branch firing when r + 1 >= MAX_RETRIES; else the pass branch
(retries untouched, _v bumped).  All branches store fb.get("feedback", []). -/
def checkerCore (rec : SectionRec) (fields : List (String × JVal)) : SectionRec :=
  let r := rec.retriesD
  let fbk := (jget fields "feedback").getD (.jarr [])
  if !otruthy (jget fields "passed") then
    if r + 1 ≥ MAX_RETRIES then
      { rec with passed := some true, feedback := some fbk,
                 retries := some (r + 1), v := some (rec.vD0 + 1) }
    else
      { rec with passed := some false, feedback := some fbk,
                 retries := some (r + 1), v := some (rec.vD0 + 1) }
  else
    { rec with passed := some true, feedback := some fbk, v := some (rec.vD0 + 1) }

/-- nodes.py checker._checker acting on the section record.  parse is the
outcome of json.loads on the LLM output: none when json.loads raised (then
fb stays the fail-open default dict), some v when it returned v.  When fb is
not a dict, fb.get raises AttributeError, which propagates out of the node. -/
def checkerStep (rec : SectionRec) (parse : Option JVal) : Except PyError SectionRec :=
  match parse.getD checkerDefaultVerdict with
  | .jobj fields => .ok (checkerCore rec fields)
  | _ => .error .attributeError

/-- nodes.py generator._generator (fallback branch; the citation-enhanced
branch in pdf_rag/citation_enhancer.py updates the same four keys the same
way): section_data.update(draft=text, _v=get("_v",0)+1, retries=r,
feedback=[]), where r = section_data.get("retries", 0). -/
def genStep (rec : SectionRec) (text : String) : SectionRec :=
  { rec with draft := some text, v := some (rec.vD0 + 1),
             retries := some rec.retriesD, feedback := some (.jarr []) }

/-- nodes.py router._router: "done" if section_data.get("passed") is truthy,
else "done" if section_data.get("retries", 0) >= MAX_RETRIES, else "retry". -/
def router (rec : SectionRec) : String :=
  if rec.passedB then "done"
  else if rec.retriesD ≥ MAX_RETRIES then "done"
  else "retry"

/-- The workflow state fields that the join / planner logic reads.  Each
field is Option-valued: none models a key absent from the state dict. -/
structure State where
  ctx : Option (String → Option JVal) := none
  tasks : Option (List String) := none
  bs : Option SectionRec := none
  inc : Option SectionRec := none
  cf : Option SectionRec := none

/-- nodes.py join_route: read state.get(k, \x7b\x7d).get("passed") for
k = bs, inc, cf; "go" when all three are truthy, else "wait". -/
def join_route (s : State) : String :=
  let bs_passed := (s.bs.getD {}).passedB
  let inc_passed := (s.inc.getD {}).passedB
  let cf_passed := (s.cf.getD {}).passedB
  if bs_passed && inc_passed && cf_passed then "go" else "wait"

/-- nodes.py planner_agent: the default task list. -/
def VALID_TASKS : List String := ["balance_sheet", "income_statement", "cash_flows"]

/-- A proposed task-list element that Python cannot hash: a JSON array
(list) or JSON object (dict).  The membership test t in \x7b...\x7d in
planner_agent's comprehension raises TypeError on such an element. -/
def unhashable : JVal → Bool
  | .jarr _ => true
  | .jobj _ => true
  | _ => false

/-- nodes.py planner_agent: tasks defaults to VALID_TASKS; if json.loads
succeeds with a dict whose "tasks" key holds a non-empty list, tasks becomes
that list filtered by membership in the valid set (hashable non-string
entries never match).  Any other outcome keeps the default: parse failure,
non-dict, missing / non-list / empty "tasks" — and also a list containing
an unhashable element, because then the set-membership test raises
TypeError inside the same try before tasks is reassigned. -/
def planner_tasks (parse : Option JVal) : List String :=
  match parse with
  | some (.jobj fields) =>
      match jget fields "tasks" with
      | some (.jarr ts) =>
          if ts.isEmpty then VALID_TASKS
          else if ts.any unhashable then VALID_TASKS
          else ts.filterMap (fun t =>
            match t with
            | .jstr s => if s ∈ VALID_TASKS then some s else none
            | _ => none)
      | _ => VALID_TASKS
  | _ => VALID_TASKS

/-- tokens.py count_tokens.  The optional tiktoken encoder (an external
collaborator, absent in the stub environment) is passed as a parameter;
when it is absent the estimate is max(1, int(len(text) / 4)). -/
def count_tokens (encoder : Option (String → Nat)) (text : String) : Nat :=
  if text = "" then 0
  else
    match encoder with
    | some enc => enc text
    | none => max 1 (text.length / 4)

/-- llm.py: the stub response text returned when the OpenAI SDK failed to
load at import time. -/
def STUB_TEXT : String := "【stub】此处返回模型输出（SDK 未就绪时的占位内容）。"

/-- A transport or availability failure raised by the OpenAI client at call
time. -/
structure TransportError where
  msg : String

/-- A successful OpenAI chat completion, as read by llm.py: the message
content and the optional usage counts. -/
structure LLMResp where
  content : String
  promptTokens : Option Nat
  completionTokens : Option Nat

/-- llm.py call_llm.  useOpenai is the import-time _USE_OPENAI flag; backend
models _client.chat.completions.create, which llm.py calls with no
surrounding try, so a call-time error propagates (hence the Except result).
In the stub branch the function returns STUB_TEXT and length-estimated
token counts. -/
def call_llm (useOpenai : Bool)
    (backend : String → String → String → Except TransportError LLMResp)
    (encoder : Option (String → Nat)) (model system user : String) :
    Except TransportError (String × Nat × Nat) :=
  let prompt_for_count := "[SYSTEM]\n" ++ system ++ "\n[USER]\n" ++ user
  let in_tok := count_tokens encoder prompt_for_count
  if useOpenai then
    match backend model system user with
    | .error e => .error e
    | .ok resp =>
        let text := resp.content.trim
        let out_tok := resp.completionTokens.getD (count_tokens encoder text)
        let in_tok2 := resp.promptTokens.getD in_tok
        .ok (text, in_tok2, out_tok)
  else
    .ok (STUB_TEXT, in_tok, count_tokens encoder STUB_TEXT)

/-- config.py Pricing (the two per-1k rates, externally configurable).
Python floats are modelled as exact rationals. -/
structure Pricing where
  input_per_1k : ℚ
  output_per_1k : ℚ

/-- costing.py estimate_cost: (in / 1000.0) * input rate + (out / 1000.0)
* output rate. -/
def estimate_cost (p : Pricing) (input_tokens output_tokens : ℕ) : ℚ :=
  (input_tokens : ℚ) / 1000 * p.input_per_1k
    + (output_tokens : ℚ) / 1000 * p.output_per_1k

/-- One entry of costing.py COST_LOG, as appended by log_cost. -/
structure CostEntry where
  node : String
  role : String
  input_tokens : ℕ
  output_tokens : ℕ
  input_cost : ℚ
  output_cost : ℚ
  total_cost : ℚ
  prompt_preview : String
  output_preview : String

/-- costing.py log_cost: append one entry (previews truncated to 200
characters). -/
def log_cost (p : Pricing) (node role : String) (in_tok out_tok : ℕ)
    (prompt_preview output_preview : String) (cost_log : List CostEntry) :
    List CostEntry :=
  cost_log ++ [{ node := node, role := role,
                 input_tokens := in_tok, output_tokens := out_tok,
                 input_cost := (in_tok : ℚ) / 1000 * p.input_per_1k,
                 output_cost := (out_tok : ℚ) / 1000 * p.output_per_1k,
                 total_cost := estimate_cost p in_tok out_tok,
                 prompt_preview := prompt_preview.take 200,
                 output_preview := output_preview.take 200 }]

/-- The summary record returned by costing.py summarize_cost.  The field
names mirror the keys of the returned dict; note the source key for the
estimated cost is "est_cost". -/
structure CostSummary where
  calls : ℕ
  input_tokens : ℕ
  output_tokens : ℕ
  est_cost : ℚ

/-- costing.py summarize_cost over a ledger. -/
def summarize_cost (p : Pricing) (cost_log : List CostEntry) : CostSummary :=
  let total_in := (cost_log.map CostEntry.input_tokens).sum
  let total_out := (cost_log.map CostEntry.output_tokens).sum
  { calls := cost_log.length,
    input_tokens := total_in,
    output_tokens := total_out,
    est_cost := estimate_cost p total_in total_out }

/-- The literal keys of the dict returned by costing.py summarize_cost
(lines 43-48). -/
def summarize_cost_keys : List String :=
  ["calls", "input_tokens", "output_tokens", "est_cost"]

/-- The run-level reachability relation for one section record, following
the section subgraph of graph.py: START → Generator → Checker, with the
conditional edge Checker → (retry → Generator | done → END).  The record
starts as the empty dict.  A checker step is possible only when the record
it acts on is the output of a Generator step that was entered either from
START or from a "retry" routing decision; since genStep preserves the
passed and retries fields that router reads, that gate is expressed as
router rec = "retry" on the pre-state (which also holds for the empty
initial record).  A checker step that raises produces no new record. -/
inductive Reachable : SectionRec → Prop where
  | init : Reachable {}
  | gen : ∀ rec text, Reachable rec → Reachable (genStep rec text)
  | check : ∀ rec parse rec2, Reachable rec → router rec = "retry" →
      checkerStep rec parse = .ok rec2 → Reachable rec2

/-! Helper lemmas. -/

theorem genStep_retriesD (rec : SectionRec) (t : String) :
    (genStep rec t).retriesD = rec.retriesD := rfl

theorem genStep_passedB (rec : SectionRec) (t : String) :
    (genStep rec t).passedB = rec.passedB := rfl

theorem router_genStep (rec : SectionRec) (t : String) :
    router (genStep rec t) = router rec := by
  simp [router, genStep_retriesD, genStep_passedB]

theorem router_retry_iff (rec : SectionRec) :
    router rec = "retry" ↔ rec.passedB = false ∧ rec.retriesD < MAX_RETRIES := by
  have hne : ("done" : String) ≠ "retry" := by decide
  unfold router
  by_cases hp : rec.passedB
  · simp [hp, hne]
  · by_cases hr : rec.retriesD ≥ MAX_RETRIES
    · simp [hp, hr, hne]
      try omega
    · simp [hp, hr]
      try omega

/-! Claim theorems. -/

/-- C5: the Join Barrier routing function join_route returns "go" if and
only if all three section records (bs, inc, cf) have a truthy passed flag,
and if any single one of them is false it returns "wait". -/
theorem c5_join_route_iff (s : State) :
    (join_route s = "go" ↔
      ((s.bs.getD {}).passedB = true ∧ (s.inc.getD {}).passedB = true ∧
        (s.cf.getD {}).passedB = true)) ∧
    (((s.bs.getD {}).passedB = false ∨ (s.inc.getD {}).passedB = false ∨
        (s.cf.getD {}).passedB = false) → join_route s = "wait") := by
  have hne : ("wait" : String) ≠ "go" := by decide
  constructor
  · by_cases h1 : (s.bs.getD {}).passedB <;>
      by_cases h2 : (s.inc.getD {}).passedB <;>
      by_cases h3 : (s.cf.getD {}).passedB <;>
      simp [join_route, h1, h2, h3, hne]
  · intro h
    simp only [join_route]
    rcases h with h | h | h <;> simp [h]

/-- C5 witness: a state where the income-statement record has passed =
false routes to "wait". -/
theorem c5_join_route_iff_witness :
    ((({ bs := some { passed := some true }, inc := some { passed := some false } } : State).inc.getD
        {}).passedB = false) ∧
    join_route { bs := some { passed := some true }, inc := some { passed := some false } } = "wait" :=
  ⟨rfl, (c5_join_route_iff _).2 (Or.inr (Or.inl rfl))⟩

/-- C6 counterexample: on gateway output "\x7b\x7d" — valid JSON, an empty
object, which does not have the expected verdict structure — the checker
takes the failure branch on the empty-dict record: passed becomes false and
the retry counter becomes 1 (the claim predicts passed = true with the
counter unchanged); and on the output "[]" — valid JSON that is not a dict
— the checker raises AttributeError (the claim says it never raises). -/
theorem c6_failopen_counterexample :
    checkerStep {} (some (.jobj [])) =
      .ok { passed := some false, feedback := some (.jarr []), retries := some 1, v := some 1 } ∧
    SectionRec.passedB
        { passed := some false, feedback := some (.jarr []), retries := some 1, v := some 1 } = false ∧
    SectionRec.retriesD
        { passed := some false, feedback := some (.jarr []), retries := some 1, v := some 1 } = 1 ∧
    checkerStep {} (some (.jarr [])) = .error .attributeError :=
  ⟨rfl, rfl, rfl, rfl⟩

/-- C6 (amended): the fail-open default applies exactly when json.loads
itself raises: in that case the checker behaves as if the verdict were
passed = true with empty feedback — the record ends with passed = true, the
retry counter unchanged, and no exception.  (Valid JSON lacking the
expected structure is instead handled by the parsed-dict path, and
non-object JSON raises AttributeError.) -/
theorem c6_failopen_on_parse_error (rec : SectionRec) :
    checkerStep rec none =
      .ok { rec with passed := some true, feedback := some (.jarr []), v := some (rec.vD0 + 1) } := rfl

/-- C6 witness: the fail-open path on a record with one retry already
recorded leaves the counter at 1 and sets passed = true. -/
theorem c6_failopen_on_parse_error_witness :
    checkerStep ({ retries := some 1 } : SectionRec) none =
      .ok { passed := some true, feedback := some (.jarr []), retries := some 1, v := some 1 } :=
  c6_failopen_on_parse_error { retries := some 1 }

/-- C10: when the LLM output parses as a valid JSON object that lacks the
"passed" key, the checker treats the verdict as failed — it takes the retry
branch or the forced-pass branch and increments the retry counter — while
the fail-open default (passed = true, retry counter unchanged) fires only
when json.loads raises. -/
theorem c10_missing_passed_key_fails (rec : SectionRec) (fields : List (String × JVal))
    (h : jget fields "passed" = none) :
    (checkerStep rec (some (.jobj fields)) = .ok
      (if rec.retriesD + 1 ≥ MAX_RETRIES then
        { rec with passed := some true,
                   feedback := some ((jget fields "feedback").getD (.jarr [])),
                   retries := some (rec.retriesD + 1), v := some (rec.vD0 + 1) }
       else
        { rec with passed := some false,
                   feedback := some ((jget fields "feedback").getD (.jarr [])),
                   retries := some (rec.retriesD + 1), v := some (rec.vD0 + 1) })) ∧
    checkerStep rec none =
      .ok { rec with passed := some true, feedback := some (.jarr []), v := some (rec.vD0 + 1) } := by
  constructor
  · simp [checkerStep, checkerCore, h, otruthy]
  · rfl

/-- C10 witness: the empty JSON object at the empty record takes the retry
branch with retry counter 1. -/
theorem c10_missing_passed_key_fails_witness :
    jget [] "passed" = none ∧
    (checkerStep {} (some (.jobj [])) = .ok
        { passed := some false, feedback := some (.jarr []), retries := some 1, v := some 1 } ∧
     checkerStep ({} : SectionRec) none = .ok
        { passed := some true, feedback := some (.jarr []), v := some 1 }) :=
  ⟨rfl, c10_missing_passed_key_fails {} [] rfl⟩

/-- C3: for a checker invocation on a record with retry counter r whose LLM
verdict parses as a dict with a boolean "passed" entry and a "feedback"
entry: a failing verdict with r + 1 < MAX_RETRIES yields passed = false,
the parsed feedback, and retry counter r + 1; a failing verdict with
r + 1 >= MAX_RETRIES forces passed = true while still storing the feedback
and setting the counter to r + 1; a passing verdict yields passed = true,
the parsed feedback, a bumped version counter, and an unchanged retry
counter. -/
theorem c3_checker_parsed_verdict (rec : SectionRec) (fields : List (String × JVal))
    (p : Bool) (fbk : JVal)
    (hp : jget fields "passed" = some (.jbool p))
    (hf : jget fields "feedback" = some fbk) :
    (p = false → rec.retriesD + 1 < MAX_RETRIES →
      checkerStep rec (some (.jobj fields)) = .ok
        { rec with passed := some false, feedback := some fbk,
                   retries := some (rec.retriesD + 1), v := some (rec.vD0 + 1) }) ∧
    (p = false → rec.retriesD + 1 ≥ MAX_RETRIES →
      checkerStep rec (some (.jobj fields)) = .ok
        { rec with passed := some true, feedback := some fbk,
                   retries := some (rec.retriesD + 1), v := some (rec.vD0 + 1) }) ∧
    (p = true →
      checkerStep rec (some (.jobj fields)) = .ok
        { rec with passed := some true, feedback := some fbk, v := some (rec.vD0 + 1) }) := by
  refine ⟨?_, ?_, ?_⟩
  · intro hpf hlt
    subst hpf
    simp [checkerStep, checkerCore, hp, hf, otruthy, truthy]
    exact hlt
  · intro hpf hge
    subst hpf
    simp [checkerStep, checkerCore, hp, hf, otruthy, truthy]
    exact hge
  · intro hpt
    subst hpt
    simp [checkerStep, checkerCore, hp, hf, otruthy, truthy]

/-- C3 witness: a passing verdict on the empty record leaves the retry
counter unchanged and sets passed = true. -/
theorem c3_checker_parsed_verdict_witness :
    jget [("passed", JVal.jbool true), ("feedback", JVal.jarr [])] "passed" =
      some (.jbool true) ∧
    jget [("passed", JVal.jbool true), ("feedback", JVal.jarr [])] "feedback" =
      some (JVal.jarr []) ∧
    checkerStep {} (some (.jobj [("passed", JVal.jbool true), ("feedback", JVal.jarr [])])) =
      .ok { passed := some true, feedback := some (JVal.jarr []), v := some 1 } :=
  ⟨rfl, rfl,
    (c3_checker_parsed_verdict {} [("passed", JVal.jbool true), ("feedback", JVal.jarr [])]
      true (JVal.jarr []) rfl rfl).2.2 rfl⟩

/-- C7 counterexample: a parseable proposal whose task list contains only
the invalid identifier "foo" yields the empty task list, not the full
list of all three section types. -/
theorem c7_planner_counterexample :
    planner_tasks (some (.jobj [("tasks", .jarr [.jstr "foo"])])) = [] ∧
    ([] : List String) ≠ VALID_TASKS :=
  ⟨rfl, by decide⟩

/-- C7 (amended): the full-list fallback applies to output that is not
valid JSON, parses to a non-object, carries a missing, non-list or empty
"tasks" value, or proposes a non-empty task list containing an unhashable
element (a JSON array or object, on which the set-membership test raises
TypeError inside the guarding try, so the default assignment survives); a
non-empty task list of hashable proposals is instead filtered to the valid
identifiers, which can be a strict subset and in particular empty when
every proposed identifier is invalid. -/
theorem c7_planner_fallback (fields : List (String × JVal)) (ts : List JVal)
    (hts : jget fields "tasks" = some (.jarr ts)) (hne : ts ≠ [])
    (hhash : ts.any unhashable = false) :
    planner_tasks none = VALID_TASKS ∧
    (∀ v : JVal, (∀ g, v ≠ .jobj g) → planner_tasks (some v) = VALID_TASKS) ∧
    (∀ g, jget g "tasks" = none → planner_tasks (some (.jobj g)) = VALID_TASKS) ∧
    (∀ g v, jget g "tasks" = some v → (∀ l, v ≠ .jarr l) →
      planner_tasks (some (.jobj g)) = VALID_TASKS) ∧
    (∀ g, jget g "tasks" = some (.jarr []) → planner_tasks (some (.jobj g)) = VALID_TASKS) ∧
    (∀ g us, jget g "tasks" = some (.jarr us) → us.any unhashable = true →
      planner_tasks (some (.jobj g)) = VALID_TASKS) ∧
    planner_tasks (some (.jobj fields)) =
      ts.filterMap (fun t =>
        match t with
        | .jstr s => if s ∈ VALID_TASKS then some s else none
        | _ => none) := by
  refine ⟨rfl, ?_, ?_, ?_, ?_, ?_, ?_⟩
  · intro v hv
    cases v with
    | jobj g => exact absurd rfl (hv g)
    | jbool b => rfl
    | jnum n => rfl
    | jstr s => rfl
    | jarr l => rfl
  · intro g hg
    simp [planner_tasks, hg]
  · intro g v hgv hnl
    cases v with
    | jarr l => exact absurd rfl (hnl l)
    | jobj l => simp [planner_tasks, hgv]
    | jbool b => simp [planner_tasks, hgv]
    | jnum n => simp [planner_tasks, hgv]
    | jstr s => simp [planner_tasks, hgv]
  · intro g hg
    simp [planner_tasks, hg]
  · intro g us hg hum
    simp [planner_tasks, hg, hum]
  · simp [planner_tasks, hts, hne, hhash]

/-- C7 witness: a hashable proposal of one valid and one invalid
identifier is filtered to just the valid one. -/
theorem c7_planner_fallback_witness :
    jget [("tasks", JVal.jarr [.jstr "balance_sheet", .jstr "foo"])] "tasks" =
      some (.jarr [.jstr "balance_sheet", .jstr "foo"]) ∧
    ([JVal.jstr "balance_sheet", .jstr "foo"] ≠ ([] : List JVal)) ∧
    [JVal.jstr "balance_sheet", .jstr "foo"].any unhashable = false ∧
    planner_tasks (some (.jobj [("tasks", JVal.jarr [.jstr "balance_sheet", .jstr "foo"])])) =
      [JVal.jstr "balance_sheet", .jstr "foo"].filterMap (fun t =>
        match t with
        | .jstr s => if s ∈ VALID_TASKS then some s else none
        | _ => none) :=
  ⟨rfl, List.cons_ne_nil _ _, rfl,
    (c7_planner_fallback [("tasks", JVal.jarr [.jstr "balance_sheet", .jstr "foo"])]
      [JVal.jstr "balance_sheet", .jstr "foo"] rfl (List.cons_ne_nil _ _) rfl).2.2.2.2.2.2⟩

/-- C9 counterexample: the dict returned by summarize_cost carries the key
"est_cost", not "estimated_cost". -/
theorem c9_summary_key_counterexample :
    "estimated_cost" ∉ summarize_cost_keys ∧ "est_cost" ∈ summarize_cost_keys := by
  decide

/-- C9 (amended): for every ledger, the cost summary reports calls = number
of entries, the token fields as the sums over the entries, and (under the
key "est_cost") the estimated cost (total input / 1000) * input rate +
(total output / 1000) * output rate; for two calls of (100, 50) and
(200, 100) tokens at rates 0.05 / 0.15 per 1k, that cost is 0.0375. -/
theorem c9_summary_formula (p : Pricing) (entries : List CostEntry) :
    (summarize_cost p entries).calls = entries.length ∧
    (summarize_cost p entries).input_tokens = (entries.map CostEntry.input_tokens).sum ∧
    (summarize_cost p entries).output_tokens = (entries.map CostEntry.output_tokens).sum ∧
    (summarize_cost p entries).est_cost =
      ((entries.map CostEntry.input_tokens).sum : ℚ) / 1000 * p.input_per_1k
        + ((entries.map CostEntry.output_tokens).sum : ℚ) / 1000 * p.output_per_1k ∧
    (summarize_cost ⟨0.05, 0.15⟩
        (log_cost ⟨0.05, 0.15⟩ "BS_Worker" "worker" 200 100 "p2" "o2"
          (log_cost ⟨0.05, 0.15⟩ "Planner" "planner" 100 50 "p1" "o1" []))).est_cost
      = 0.0375 := by
  refine ⟨rfl, rfl, rfl, rfl, ?_⟩
  norm_num [summarize_cost, log_cost, estimate_cost]

/-- C9 witness: the summary of the empty ledger reports zero calls. -/
theorem c9_summary_formula_witness :
    (summarize_cost ⟨0.05, 0.15⟩ []).calls = ([] : List CostEntry).length :=
  (c9_summary_formula ⟨0.05, 0.15⟩ []).1

/-- C8 counterexample: in OpenAI mode (the SDK loaded at import time), a
transport failure raised by the client call propagates out of call_llm to
the calling node — there is no try around the request. -/
theorem c8_transport_counterexample :
    call_llm true (fun _ _ _ => .error ⟨"connection refused"⟩) none
      "gpt-5-mini" "sys" "user" = .error ⟨"connection refused"⟩ := rfl

/-- C8 (amended): when the OpenAI SDK failed to load at import time (stub
mode), call_llm never errors: for every backend and input it returns the
clearly-marked stub text together with token counts computed by
count_tokens — which, with no encoder, estimates from text length as
max(1, len / 4).  In OpenAI mode, however, a call-time transport error
from the backend propagates to the caller. -/
theorem c8_stub_never_raises
    (backend : String → String → String → Except TransportError LLMResp)
    (encoder : Option (String → Nat)) (m s u : String) :
    call_llm false backend encoder m s u =
      .ok (STUB_TEXT, count_tokens encoder ("[SYSTEM]\n" ++ s ++ "\n[USER]\n" ++ u),
        count_tokens encoder STUB_TEXT) ∧
    count_tokens none STUB_TEXT = max 1 (STUB_TEXT.length / 4) ∧
    (∀ e, call_llm true (fun _ _ _ => .error e) encoder m s u = .error e) :=
  ⟨rfl, rfl, fun _ => rfl⟩

/-- C8 witness: a concrete stub-mode call returns the stub text and
length-estimated token counts. -/
theorem c8_stub_never_raises_witness :
    call_llm false (fun _ _ _ => .error ⟨"unused"⟩) none "gpt-5-mini" "sys" "user" =
      .ok (STUB_TEXT, count_tokens none ("[SYSTEM]\n" ++ "sys" ++ "\n[USER]\n" ++ "user"),
        count_tokens none STUB_TEXT) :=
  (c8_stub_never_raises (fun _ _ _ => .error ⟨"unused"⟩) none "gpt-5-mini" "sys" "user").1

/-- Membership in the first-seen deduplication pass. -/
theorem mem_dedupFirst (x : String) :
    ∀ (l seen : List String), x ∈ dedupFirst l seen ↔ x ∈ l ∧ x ∉ seen := by
  intro l
  induction l with
  | nil => intro seen; simp [dedupFirst]
  | cons y ys ih =>
      intro seen
      by_cases hy : y ∈ seen
      · rw [dedupFirst, if_pos hy, ih]
        simp only [List.mem_cons]
        constructor
        · rintro ⟨h1, h2⟩
          exact ⟨Or.inr h1, h2⟩
        · rintro ⟨h1 | h1, h2⟩
          · exact absurd (h1 ▸ hy) h2
          · exact ⟨h1, h2⟩
      · rw [dedupFirst, if_neg hy]
        simp only [List.mem_cons, ih, not_or]
        constructor
        · rintro (h | ⟨h1, h2, h3⟩)
          · exact ⟨Or.inl h, h ▸ hy⟩
          · exact ⟨Or.inr h1, h3⟩
        · rintro ⟨h1 | h1, h2⟩
          · exact Or.inl h1
          · by_cases hxy : x = y
            · exact Or.inl hxy
            · exact Or.inr ⟨h1, hxy, h2⟩

/-- C2 counterexample: the three declared merge rules are not commutative
on the inputs the claim singles out.  Two section records with equal
version counters merge to the left record in one order and to the right in
the other; list_union changes the element order; the ctx dict union is
right-biased on an overlapping key. -/
theorem c2_merge_commutative_counterexample :
    (section_merge (some { draft := some "x", v := some 0 })
        (some { draft := some "y", v := some 0 }) ≠
      section_merge (some { draft := some "y", v := some 0 })
        (some { draft := some "x", v := some 0 })) ∧
    (list_union (some ["income_statement"]) (some ["balance_sheet"]) ≠
      list_union (some ["balance_sheet"]) (some ["income_statement"])) ∧
    (dict_union (fun k => if k = "pdf_text" then some (.jnum 1) else none)
        (fun k => if k = "pdf_text" then some (.jnum 2) else none) "pdf_text" ≠
      dict_union (fun k => if k = "pdf_text" then some (.jnum 2) else none)
        (fun k => if k = "pdf_text" then some (.jnum 1) else none) "pdf_text") := by
  refine ⟨?_, by decide, ?_⟩
  · intro h
    exact absurd (congrArg SectionRec.draft h) (by decide)
  · intro h
    simp [dict_union] at h

/-- C2 (amended): each merge rule is commutative only under a proviso:
section_merge is commutative when the two records' version counters
differ; list_union is commutative as a set (the two orders contain the
same elements, though element order can differ); the ctx dict union is
commutative when the two branches wrote disjoint key sets (an overlapping
key resolves, in each order, to the right operand's value). -/
theorem c2_merge_commutative_amended
    (a b : Option SectionRec) (ca cb : String → Option JVal)
    (ta tb : Option (List String))
    (hv : (a.getD {}).vDneg ≠ (b.getD {}).vDneg)
    (hd : ∀ k, (ca k).isSome → cb k = none) :
    section_merge a b = section_merge b a ∧
    (∀ x, x ∈ list_union ta tb ↔ x ∈ list_union tb ta) ∧
    dict_union ca cb = dict_union cb ca := by
  refine ⟨?_, ?_, ?_⟩
  · unfold section_merge
    rcases lt_or_gt_of_ne hv with hlt | hgt
    · rw [if_neg (by omega), if_pos (by omega)]
    · rw [if_pos (by omega), if_neg (by omega)]
  · intro x
    unfold list_union
    rw [mem_dedupFirst, mem_dedupFirst]
    simp [List.mem_append, or_comm]
  · funext k
    unfold dict_union
    cases hb : cb k with
    | some w =>
        cases ha : ca k with
        | some v =>
            have := hd k (by simp [ha])
            rw [hb] at this
            cases this
        | none => simp
    | none =>
        cases ha : ca k with
        | some v => simp
        | none => simp

/-- C2 witness: concrete records with distinct version counters and ctx
maps with disjoint keys, where all three amended commutativity statements
hold. -/
theorem c2_merge_commutative_amended_witness :
    (((some { v := some 1 } : Option SectionRec).getD {}).vDneg ≠
        ((some { v := some 0 } : Option SectionRec).getD {}).vDneg) ∧
    (∀ k, ((fun j => if j = "pdf_text" then some (JVal.jstr "t") else none) k).isSome →
        (fun j => if j = "pdf_path" then some (JVal.jstr "p") else none) k = none) ∧
    (section_merge (some { v := some 1 }) (some { v := some 0 }) =
        section_merge (some { v := some 0 }) (some { v := some 1 }) ∧
      (∀ x, x ∈ list_union (some ["balance_sheet"]) (some ["cash_flows"]) ↔
          x ∈ list_union (some ["cash_flows"]) (some ["balance_sheet"])) ∧
      dict_union (fun j => if j = "pdf_text" then some (JVal.jstr "t") else none)
          (fun j => if j = "pdf_path" then some (JVal.jstr "p") else none) =
        dict_union (fun j => if j = "pdf_path" then some (JVal.jstr "p") else none)
          (fun j => if j = "pdf_text" then some (JVal.jstr "t") else none)) := by
  have hd : ∀ k, ((fun j => if j = "pdf_text" then some (JVal.jstr "t") else none) k).isSome →
      (fun j => if j = "pdf_path" then some (JVal.jstr "p") else none) k = none := by
    intro k hk
    by_cases h : k = "pdf_path"
    · subst h
      exact absurd hk (by decide)
    · simp only [if_neg h]
  exact ⟨by decide, hd,
    c2_merge_commutative_amended (some { v := some 1 }) (some { v := some 0 }) _ _
      (some ["balance_sheet"]) (some ["cash_flows"]) (by decide) hd⟩

/-- C4 counterexample: starting from the empty balance-sheet record, after
the first failing verdict the router says "retry", but after the second
failing verdict the checker has already forced passed = true (retry counter
2), so the router's second decision is "done", not the "retry" the claim
asserts — and a third failing verdict is never consumed because the
pipeline has exited. -/
theorem c4_router_sequence_counterexample :
    checkerStep (genStep {} "draft1")
        (some (.jobj [("passed", .jbool false), ("feedback", .jarr [])])) =
      .ok { draft := some "draft1", passed := some false, feedback := some (.jarr []),
            retries := some 1, v := some 2 } ∧
    router { draft := some "draft1", passed := some false, feedback := some (.jarr []),
             retries := some 1, v := some 2 } = "retry" ∧
    checkerStep
        (genStep { draft := some "draft1", passed := some false, feedback := some (.jarr []),
                   retries := some 1, v := some 2 } "draft2")
        (some (.jobj [("passed", .jbool false), ("feedback", .jarr [])])) =
      .ok { draft := some "draft2", passed := some true, feedback := some (.jarr []),
            retries := some 2, v := some 4 } ∧
    router { draft := some "draft2", passed := some true, feedback := some (.jarr []),
             retries := some 2, v := some 4 } = "done" ∧
    ("done" : String) ≠ "retry" :=
  ⟨rfl, rfl, rfl, rfl, by decide⟩

/-- C4 (amended): with MAX_RETRIES = 2 and failing balance-sheet verdicts,
the retry counter takes the successive values 1 then 2 (passed forced to
true at 2), and the Router's successive decisions are "retry" then "done";
only two checker invocations occur, so a third failing verdict is never
consumed. -/
theorem c4_retry_sequence :
    MAX_RETRIES = 2 ∧
    SectionRec.retriesD
      { draft := some "draft1", passed := some false, feedback := some (.jarr []),
        retries := some 1, v := some 2 } = 1 ∧
    SectionRec.passedB
      { draft := some "draft1", passed := some false, feedback := some (.jarr []),
        retries := some 1, v := some 2 } = false ∧
    router { draft := some "draft1", passed := some false, feedback := some (.jarr []),
             retries := some 1, v := some 2 } = "retry" ∧
    checkerStep (genStep {} "draft1")
        (some (.jobj [("passed", .jbool false), ("feedback", .jarr [])])) =
      .ok { draft := some "draft1", passed := some false, feedback := some (.jarr []),
            retries := some 1, v := some 2 } ∧
    checkerStep
        (genStep { draft := some "draft1", passed := some false, feedback := some (.jarr []),
                   retries := some 1, v := some 2 } "draft2")
        (some (.jobj [("passed", .jbool false), ("feedback", .jarr [])])) =
      .ok { draft := some "draft2", passed := some true, feedback := some (.jarr []),
            retries := some 2, v := some 4 } ∧
    SectionRec.retriesD
      { draft := some "draft2", passed := some true, feedback := some (.jarr []),
        retries := some 2, v := some 4 } = 2 ∧
    SectionRec.passedB
      { draft := some "draft2", passed := some true, feedback := some (.jarr []),
        retries := some 2, v := some 4 } = true ∧
    router { draft := some "draft2", passed := some true, feedback := some (.jarr []),
             retries := some 2, v := some 4 } = "done" :=
  ⟨rfl, rfl, rfl, rfl, rfl, rfl, rfl, rfl, rfl⟩

/-- C1: every section record reachable in a run that starts with the empty
record keeps its retry counter at most MAX_RETRIES; whenever the counter
equals MAX_RETRIES the passed flag is true; and whenever the router
returns "done" for the record, the passed flag is true. -/
theorem c1_retry_invariant (rec : SectionRec) (h : Reachable rec) :
    rec.retriesD ≤ MAX_RETRIES ∧
    (rec.retriesD = MAX_RETRIES → rec.passedB = true) ∧
    (router rec = "done" → rec.passedB = true) := by
  induction h with
  | init => exact ⟨by decide, by decide, by decide⟩
  | gen rec t hr ih =>
      refine ⟨?_, ?_, ?_⟩
      · rw [genStep_retriesD]; exact ih.1
      · rw [genStep_retriesD, genStep_passedB]; exact ih.2.1
      · rw [router_genStep, genStep_passedB]; exact ih.2.2
  | check rec parse rec2 hr hroute hstep ih =>
      obtain ⟨hpf, hlt⟩ := (router_retry_iff rec).mp hroute
      unfold checkerStep at hstep
      cases hparse : parse.getD checkerDefaultVerdict <;> rw [hparse] at hstep <;>
        simp at hstep
      rename_i fields
      subst hstep
      unfold checkerCore
      by_cases hpass : otruthy (jget fields "passed")
      · rw [if_neg (by simp [hpass])]
        refine ⟨?_, fun _ => rfl, fun _ => rfl⟩
        show rec.retriesD ≤ MAX_RETRIES
        omega
      · rw [if_pos (by simp [hpass])]
        by_cases hforce : rec.retriesD + 1 ≥ MAX_RETRIES
        · rw [if_pos hforce]
          refine ⟨?_, fun _ => rfl, fun _ => rfl⟩
          show rec.retriesD + 1 ≤ MAX_RETRIES
          omega
        · rw [if_neg hforce]
          refine ⟨?_, ?_, ?_⟩
          · show rec.retriesD + 1 ≤ MAX_RETRIES
            omega
          · intro hcnt
            have hcnt2 : rec.retriesD + 1 = MAX_RETRIES := hcnt
            omega
          · intro hdone
            have hretry :
                router
                  { rec with passed := some false,
                             feedback := some ((jget fields "feedback").getD (.jarr [])),
                             retries := some (rec.retriesD + 1),
                             v := some (rec.vD0 + 1) } = "retry" :=
              (router_retry_iff _).mpr
                ⟨rfl, by show rec.retriesD + 1 < MAX_RETRIES; omega⟩
            rw [hretry] at hdone
            exact absurd hdone (by decide)

/-- C1 witness: the empty initial record is reachable and satisfies the
invariant. -/
theorem c1_retry_invariant_witness :
    Reachable {} ∧
    (({} : SectionRec).retriesD ≤ MAX_RETRIES ∧
      (({} : SectionRec).retriesD = MAX_RETRIES → ({} : SectionRec).passedB = true) ∧
      (router {} = "done" → ({} : SectionRec).passedB = true)) :=
  ⟨Reachable.init, c1_retry_invariant {} Reachable.init⟩

end Finagent
